import Mathlib

/-!
# Session store and authentication store of the chat front end

A shallow embedding of the Zustand stores `useChatStore` (`useChatStore.js`) and
`useAuthStore` (`useAuthStore.js`).  A store is a record;
`set({...})` is a record update.  Every `async` action is cut at its `await`:
the part that runs synchronously when the action is called is `<action>Begin`,
the continuation that runs when the response is delivered is `<action>Resume`.
Between the two any other step of the store may run, since completions re-enter
the single thread.  Toasts, console output and network requests are recorded as
a list of effects returned by each step.  The wall clock (`Date.now()`,
`new Date().toISOString()`) is an argument of the steps that read it.
-/

namespace ChatStore

/-! ## Values -/

/-- The JavaScript values a session id or user id can hold: `null`, `undefined`,
a number or a string.  The derived equality is `===` on these values. -/
inductive JsId where
  | null
  | undefined
  | num (n : Int)
  | str (s : String)
  deriving DecidableEq, Repr

/-- JavaScript truthiness, as tested by `!currentSessionId`: `null`, `undefined`,
`0` and the empty string are falsy. -/
def JsId.truthy : JsId → Bool
  | .null => false
  | .undefined => false
  | .num n => n != 0
  | .str s => s != ""

/-- One entry of `sessions`.  `last_message` and `last_date` are the preview
fields written by `sendMessage`. -/
structure Session where
  id : JsId
  title : Option String
  last_message : Option String
  last_date : Option String
  deriving DecidableEq, Repr

/-- The `role` of a message. -/
inductive Role where
  | user
  | assistant
  deriving DecidableEq, Repr

/-- The structured place payload of an assistant reply (`res.data.restaurant`). -/
structure Restaurant where
  name : String
  deriving DecidableEq, Repr

/-- One entry of `messages`.  `id` is `Date.now()` for a user message and
`Date.now() + 1` for an assistant message; `url`, `name` and `restaurant` are
the optional fields of an assistant reply. -/
structure Message where
  id : Nat
  role : Role
  message : String
  createdAt : String
  url : Option String
  name : Option String
  restaurant : Option Restaurant
  deriving DecidableEq, Repr

/-- The body `res.data` of a successful `POST /get_response`. -/
structure Reply where
  message : String
  url : Option String
  name : Option String
  restaurant : Option Restaurant
  deriving DecidableEq, Repr

/-- One entry of `users`. -/
structure User where
  id : JsId
  name : String
  deriving DecidableEq, Repr

/-- One value of the `chatSessions` object: the logs of a user and the index of
the current one. -/
structure ChatEntry where
  sessions : List (List Message)
  current : Nat
  deriving DecidableEq, Repr

/-- The error a rejected request throws: `err.response?.data?.message`,
`err.response?.data?.detail` and `err.message`. -/
structure Err where
  responseMessage : Option String
  responseDetail : Option String
  message : String
  deriving DecidableEq, Repr

/-- The outcome of an awaited request: the promise resolves with `data` or
rejects with an error. -/
inductive Response (α : Type) where
  | ok (data : α)
  | fail (err : Err)
  deriving DecidableEq, Repr

/-- The requests the store sends through `axiosInstance`. -/
inductive Request where
  | getUsers
  | getSessions
  | postSession (title : String)
  | getLogs (sessionId : JsId)
  | deleteSession (sessionId : JsId)
  | postResponse (message : String) (sessionId : JsId)
  deriving DecidableEq, Repr

/-- What a step does besides changing the store. -/
inductive Effect where
  | toastError (msg : String)
  | toastSuccess (msg : String)
  | consoleLog (msg : String)
  | request (r : Request)
  deriving DecidableEq, Repr

/-- How a call of an action ends: it returns, or its promise rejects with the
error that was thrown inside it. -/
inductive Outcome where
  | returned
  | threw (err : Err)
  deriving DecidableEq, Repr

/-! ## The store -/

/-- The state of `useChatStore`.  `isSessionsLoading` is not among the initial
fields of the store, so it is `none` until `getSessions` first writes it. -/
structure ChatState where
  sessions : List Session
  users : List User
  selectedUser : Option User
  messages : List Message
  isUsersLoading : Bool
  isMessagesLoading : Bool
  chatSessions : List (String × ChatEntry)
  currentSessionId : JsId
  isSessionsLoading : Option Bool
  deriving DecidableEq, Repr

/-- The initial state passed to `create`. -/
def initialState : ChatState :=
  { sessions := []
    users := []
    selectedUser := none
    messages := []
    isUsersLoading := false
    isMessagesLoading := false
    chatSessions := []
    currentSessionId := .null
    isSessionsLoading := none }

/-- The result of one step: the new store, the effects in the order they
happen, and how the call ended. -/
structure Step where
  state : ChatState
  effects : List Effect
  outcome : Outcome
  deriving DecidableEq, Repr

/-- The number of network requests among the effects of a step. -/
def requestCount (es : List Effect) : Nat :=
  (es.filter (fun e => match e with
    | .request _ => true
    | _ => false)).length

/-- The text `err.response?.data?.message || err.message`. -/
def errText (e : Err) : String :=
  match e.responseMessage with
  | some m => if m != "" then m else e.message
  | none => e.message

/-- The text `tag + err.response?.data?.message` written to the console. -/
def errLog (tag : String) (e : Err) : String :=
  tag ++ e.responseMessage.getD "undefined"

/-- The action `resetMessages`. -/
def resetMessages (s : ChatState) : ChatState :=
  { s with messages := [] }

/-! ### getUsers and getSessions -/

/-- The action `getUsers` up to its `await`. -/
def getUsersBegin (s : ChatState) : Step :=
  { state := { s with isUsersLoading := true }
    effects := [.request .getUsers]
    outcome := .returned }

/-- The action `getUsers` from its `await` on. -/
def getUsersResume (s : ChatState) (res : Response (List User)) : Step :=
  match res with
  | .ok data =>
    { state := { { s with users := data } with isUsersLoading := false }
      effects := []
      outcome := .returned }
  | .fail err =>
    { state := { s with isUsersLoading := false }
      effects := [.toastError (errText err), .consoleLog (errLog "getUsers:" err)]
      outcome := .returned }

/-- The action `getSessions` up to its `await`. -/
def getSessionsBegin (s : ChatState) : Step :=
  { state := { s with isSessionsLoading := some true }
    effects := [.request .getSessions]
    outcome := .returned }

/-- The action `getSessions` from its `await` on. -/
def getSessionsResume (s : ChatState) (res : Response (List Session)) : Step :=
  match res with
  | .ok data =>
    { state := { { s with sessions := data } with isSessionsLoading := some false }
      effects := []
      outcome := .returned }
  | .fail err =>
    { state := { s with isSessionsLoading := some false }
      effects := [.toastError (errText err), .consoleLog (errLog "getSessions:" err)]
      outcome := .returned }

/-! ### createSession, setSession, deleteSession -/

/-- The action `createSession` up to its `await`: only the request is sent. -/
def createSessionBegin (s : ChatState) (title : String) : Step :=
  { state := s
    effects := [.request (.postSession title)]
    outcome := .returned }

/-- The action `createSession` from its `await` on. -/
def createSessionResume (s : ChatState) (res : Response Session) : Step :=
  match res with
  | .ok data =>
    { state := { s with
        sessions := data :: s.sessions
        currentSessionId := data.id
        messages := [] }
      effects := []
      outcome := .returned }
  | .fail err =>
    { state := s
      effects := [.toastError (errText err), .consoleLog (errLog "createSession:" err)]
      outcome := .returned }

/-- Whether `setSession` takes its early return:
`sessionId === null || sessionId === undefined`. -/
def isNullish (sessionId : JsId) : Bool :=
  sessionId == .null || sessionId == .undefined

/-- The action `setSession` up to its `await`, or up to its early `return` when
the argument is `null` or `undefined`. -/
def setSessionBegin (s : ChatState) (sessionId : JsId) : Step :=
  if isNullish sessionId then
    { state := { s with currentSessionId := .null, messages := [] }
      effects := []
      outcome := .returned }
  else
    { state := { s with currentSessionId := sessionId, isMessagesLoading := true, messages := [] }
      effects := [.request (.getLogs sessionId)]
      outcome := .returned }

/-- The action `setSession` from its `await` on (it is reached only when the
argument was neither `null` nor `undefined`). -/
def setSessionResume (s : ChatState) (res : Response (List Message)) : Step :=
  match res with
  | .ok data =>
    { state := { { s with messages := data } with isMessagesLoading := false }
      effects := []
      outcome := .returned }
  | .fail err =>
    { state := { s with isMessagesLoading := false }
      effects := [.toastError (errText err), .consoleLog (errLog "setSession:" err)]
      outcome := .returned }

/-- The action `deleteSession` up to its `await`. -/
def deleteSessionBegin (s : ChatState) (sessionId : JsId) : Step :=
  { state := s
    effects := [.request (.deleteSession sessionId)]
    outcome := .returned }

/-- The text of `err.response?.data?.detail || "삭제에 실패했습니다."`. -/
def deleteErrText (e : Err) : String :=
  match e.responseDetail with
  | some m => if m != "" then m else "삭제에 실패했습니다."
  | none => "삭제에 실패했습니다."

/-- The action `deleteSession` from its `await` on; `sessionId` is the argument
of the call, captured by the continuation. -/
def deleteSessionResume (s : ChatState) (sessionId : JsId) (res : Response Unit) : Step :=
  match res with
  | .ok _ =>
    { state := { s with
        sessions := s.sessions.filter (fun x => x.id != sessionId)
        currentSessionId := if s.currentSessionId = sessionId then .null else s.currentSessionId }
      effects := [.toastSuccess "세션을 삭제했습니다."]
      outcome := .returned }
  | .fail err =>
    { state := s
      effects := [.toastError (deleteErrText err), .consoleLog (errLog "deleteSession:" err)]
      outcome := .returned }

/-! ### sendMessage -/

/-- The toast of `sendMessage` when there is no session. -/
def noSessionText : String := "먼저 대화 세션을 생성하거나 선택하세요."

/-- The preview update of `sendMessage`:
`sess.id === sid ? { ...sess, last_message, last_date } : sess`, mapped over the
collection. -/
def touchSession (sid : JsId) (msg : String) (date : String) (sessions : List Session) :
    List Session :=
  sessions.map (fun sess =>
    if sess.id = sid then { sess with last_message := some msg, last_date := some date } else sess)

/-- The user message built by `sendMessage`. -/
def userMsg (text : String) (now : Nat) (iso : String) : Message :=
  { id := now, role := .user, message := text, createdAt := iso
    url := none, name := none, restaurant := none }

/-- The assistant message built by `sendMessage` from the reply. -/
def assistantMsg (data : Reply) (now : Nat) (iso : String) : Message :=
  { id := now + 1, role := .assistant, message := data.message, createdAt := iso
    url := data.url, name := data.name, restaurant := data.restaurant }

/-- The action `sendMessage` up to its `await`, or up to its early `return` when
`currentSessionId` is falsy.  `now` is `Date.now()` and `iso` is
`new Date().toISOString()` at that time. -/
def sendMessageBegin (s : ChatState) (text : String) (now : Nat) (iso : String) : Step :=
  if !s.currentSessionId.truthy then
    { state := s
      effects := [.toastError noSessionText]
      outcome := .returned }
  else
    let u := userMsg text now iso
    let s1 := { s with messages := s.messages ++ [u] }
    let s2 := { s1 with sessions := touchSession s.currentSessionId u.message u.createdAt s1.sessions }
    { state := s2
      effects := [.request (.postResponse text s.currentSessionId)]
      outcome := .returned }

/-- The action `sendMessage` from its `await` on.  `captured` is the constant
`currentSessionId` read when the call started; `s` is the store when the
response is delivered.  The `await` is not inside a `try`, so a rejected request
ends the call with the error. -/
def sendMessageResume (s : ChatState) (captured : JsId) (res : Response Reply)
    (now : Nat) (iso : String) : Step :=
  match res with
  | .fail err =>
    { state := s
      effects := []
      outcome := .threw err }
  | .ok data =>
    let a := assistantMsg data now iso
    let s1 := { s with messages := s.messages ++ [a] }
    let s2 := { s1 with sessions := touchSession captured a.message a.createdAt s1.sessions }
    { state := s2
      effects := [.consoleLog "assistantMsg"]
      outcome := .returned }

/-- The action `$reset`. -/
def reset (s : ChatState) : ChatState :=
  { s with
    sessions := []
    currentSessionId := .null
    messages := []
    isMessagesLoading := false }

/-! ### Uninterrupted runs

An action whose request is answered before any other step of the store runs. -/

/-- An uninterrupted `createSession(title)`. -/
def createSession (s : ChatState) (title : String) (res : Response Session) : Step :=
  let b := createSessionBegin s title
  let r := createSessionResume b.state res
  { r with effects := b.effects ++ r.effects }

/-- An uninterrupted `setSession(sessionId)`. -/
def setSession (s : ChatState) (sessionId : JsId) (res : Response (List Message)) : Step :=
  let b := setSessionBegin s sessionId
  if isNullish sessionId then b
  else
    let r := setSessionResume b.state res
    { r with effects := b.effects ++ r.effects }

/-- An uninterrupted `deleteSession(sessionId)`. -/
def deleteSession (s : ChatState) (sessionId : JsId) (res : Response Unit) : Step :=
  let b := deleteSessionBegin s sessionId
  let r := deleteSessionResume b.state sessionId res
  { r with effects := b.effects ++ r.effects }

/-- An uninterrupted `sendMessage(text)`: `now`, `iso` are the clock when the
call starts and `now2`, `iso2` the clock when the response is delivered. -/
def sendMessage (s : ChatState) (text : String) (now : Nat) (iso : String)
    (res : Response Reply) (now2 : Nat) (iso2 : String) : Step :=
  let b := sendMessageBegin s text now iso
  if !s.currentSessionId.truthy then b
  else
    let r := sendMessageResume b.state s.currentSessionId res now2 iso2
    { r with effects := b.effects ++ r.effects }

/-- The store after a sequence of uninterrupted, successful `createSession`
calls; `ds` lists the sessions the server returned, first call first. -/
def createAll (s : ChatState) (ds : List Session) : ChatState :=
  ds.foldl (fun st d => (createSession st "" (.ok d)).state) s

/-- An uninterrupted `getSessions()`. -/
def getSessions (s : ChatState) (res : Response (List Session)) : Step :=
  let b := getSessionsBegin s
  let r := getSessionsResume b.state res
  { r with effects := b.effects ++ r.effects }

/-- One call of `sendMessage` together with what happens to it: the text, the
clock when the call starts, the response, and the clock when the response is
delivered. -/
structure SendCall where
  text : String
  now : Nat
  iso : String
  res : Response Reply
  now2 : Nat
  iso2 : String
  deriving DecidableEq, Repr

/-- The store after a sequence of uninterrupted `sendMessage` calls, first call
first. -/
def sendAll (s : ChatState) (cs : List SendCall) : ChatState :=
  cs.foldl (fun st c => (sendMessage st c.text c.now c.iso c.res c.now2 c.iso2).state) s

/-- A non-decreasing clock over a sequence of calls: no reading is below `lo`
or below the reading before it. -/
def clockMonotone : Nat → List SendCall → Bool
  | _, [] => true
  | lo, c :: cs => decide (lo ≤ c.now) && decide (c.now ≤ c.now2) && clockMonotone c.now2 cs

/-- A clock over a sequence of calls in which no response is delivered before
its call started and every call starts at least `2` after the delivery of the
response before it (and not before `lo`). -/
def clockSpaced : Nat → List SendCall → Bool
  | _, [] => true
  | lo, c :: cs => decide (lo ≤ c.now) && decide (c.now ≤ c.now2) && clockSpaced (c.now2 + 2) cs

/-! ### setSelectedUser -/

/-- The argument of `setSelectedUser`: `null`, `undefined` or a user object. -/
inductive JsUser where
  | null
  | undefined
  | obj (u : User)
  deriving DecidableEq, Repr

/-- The test `v == null`: loose equality with `null` holds for `null` and
`undefined` and for no number or string. -/
def looseEqNull (v : JsId) : Bool :=
  match v with
  | .null => true
  | .undefined => true
  | .num _ => false
  | .str _ => false

/-- The property key a value is turned into by `state.chatSessions[user.id]`.
For a number this is its decimal numeral, which is what JavaScript gives for
integers of magnitude below `10^21`; larger numbers are printed by JavaScript in
exponent form and are not covered. -/
def JsId.key : JsId → String
  | .null => "null"
  | .undefined => "undefined"
  | .num n => toString n
  | .str s => s

/-- The action `setSelectedUser`.  The guard is `!user || user.id == null`.
`chatSessions` is read as a table of its own properties: an id whose key names a
property every object inherits (`constructor`, `toString`, `__proto__`) makes
the code read that inherited value and throw on `entry.sessions[...]`, which is
not covered here.  An index `entry.current` outside `entry.sessions` reads
`undefined` in JavaScript and is read as the empty log here; no action of the
store writes `chatSessions`. -/
def setSelectedUser (s : ChatState) (user : JsUser) : ChatState :=
  match user with
  | .null => { s with selectedUser := none, messages := [] }
  | .undefined => { s with selectedUser := none, messages := [] }
  | .obj u =>
    if looseEqNull u.id then
      { s with selectedUser := none, messages := [] }
    else
      let msgs := match s.chatSessions.lookup u.id.key with
        | some entry => entry.sessions.getD entry.current []
        | none => []
      { s with selectedUser := some u, messages := msgs }

/-! ## The authentication store (`useAuthStore.js`) -/

/-- A user record as the server returns it: the fields `email`, `id`, `name`
and whatever other fields the body carries. -/
structure Identity where
  email : Option String
  id : JsId
  name : Option String
  extra : List (String × String)
  deriving DecidableEq, Repr

/-- The object `{ email: d.email, id: d.id, name: d.name }`. -/
def Identity.project (d : Identity) : Identity :=
  { email := d.email, id := d.id, name := d.name, extra := [] }

/-- The body `res.data` of the signup, login and update-profile responses. -/
structure AuthBody where
  data : Option Identity
  message : Option String
  deriving DecidableEq, Repr

/-- The state of `useAuthStore`. -/
structure AuthState where
  authUser : Option Identity
  isSigningUp : Bool
  isLoggingIn : Bool
  isUpdatingProfile : Bool
  isCheckingAuth : Bool
  onlineUsers : List JsId
  deriving DecidableEq, Repr

/-- Both stores and what the authentication store keeps outside them: the
item `authUser` of local storage and the cookie `token`. -/
structure World where
  auth : AuthState
  chat : ChatState
  storedAuthUser : Option Identity
  tokenCookie : Option String
  deriving DecidableEq, Repr

/-- The state of the authentication store at start-up, seeded from local
storage: `authUser: localAuth ? JSON.parse(localAuth) : null`. -/
def initialAuth (stored : Option Identity) : AuthState :=
  { authUser := stored
    isSigningUp := false
    isLoggingIn := false
    isUpdatingProfile := false
    isCheckingAuth := true
    onlineUsers := [] }

/-- The world at start-up. -/
def initialWorld (stored : Option Identity) (cookie : Option String) : World :=
  { auth := initialAuth stored, chat := initialState, storedAuthUser := stored
    tokenCookie := cookie }

/-- The fields a form sends. -/
abbrev Form := List (String × String)

/-- The requests of the authentication store. -/
inductive AuthRequest where
  | getStatus
  | postSignup (data : Form)
  | postLogin (data : Form)
  | postLogout
  | putProfile (data : Form)
  deriving DecidableEq, Repr

/-- What a step of the authentication store does besides changing the world;
`chat e` is an effect of an action of the session store it called. -/
inductive AuthEffect where
  | toastError (msg : String)
  | toastSuccess (msg : String)
  | consoleLog (msg : String)
  | request (r : AuthRequest)
  | readBookmarks
  | chat (e : Effect)
  deriving DecidableEq, Repr

/-- The result of one step of the authentication store. -/
structure AuthStep where
  world : World
  effects : List AuthEffect
  outcome : Outcome
  deriving DecidableEq, Repr

/-- The text `m || dflt`. -/
def orText (m : Option String) (dflt : String) : String :=
  match m with
  | some x => if x != "" then x else dflt
  | none => dflt

/-- The update `set({ authUser: v })`. -/
def setAuthUser (w : World) (v : Option Identity) : World :=
  { w with auth := { w.auth with authUser := v } }

/-- The action `checkAuth` up to its `await`. -/
def checkAuthBegin (w : World) : AuthStep :=
  { world := w, effects := [.request .getStatus], outcome := .returned }

/-- The action `checkAuth` from its `await` on. -/
def checkAuthResume (w : World) (res : Response Identity) : AuthStep :=
  match res with
  | .ok data =>
    let w1 := setAuthUser w (some data)
    let w2 := setAuthUser w1 (some data.project)
    let w3 := { w2 with storedAuthUser := some data }
    { world := { w3 with auth := { w3.auth with isCheckingAuth := false } }
      effects := []
      outcome := .returned }
  | .fail err =>
    let w1 := setAuthUser w none
    let w2 := { w1 with storedAuthUser := none }
    { world := { w2 with auth := { w2.auth with isCheckingAuth := false } }
      effects := [.consoleLog ("checkAuth error:" ++ err.message)]
      outcome := .returned }

/-- The branch `if (res.data?.data) { set({ authUser }); localStorage.setItem }`
of `signup` and `login`. -/
def storeIdentity (w : World) (body : AuthBody) : World :=
  match body.data with
  | some d => { setAuthUser w (some d) with storedAuthUser := some d }
  | none => w

/-- The action `signup` up to its `await`. -/
def signupBegin (w : World) (data : Form) : AuthStep :=
  { world := { w with auth := { w.auth with isSigningUp := true } }
    effects := [.request (.postSignup data)]
    outcome := .returned }

/-- The action `signup` from its `await` on. -/
def signupResume (w : World) (res : Response AuthBody) : AuthStep :=
  match res with
  | .ok body =>
    let w1 := storeIdentity w body
    { world := { w1 with auth := { w1.auth with isSigningUp := false } }
      effects := [.toastSuccess (orText body.message "계정 생성이 완료되었습니다!")]
      outcome := .returned }
  | .fail err =>
    { world := { w with auth := { w.auth with isSigningUp := false } }
      effects := [.toastError (orText err.responseMessage "회원가입 실패"),
        .consoleLog (errLog "signup:" err)]
      outcome := .returned }

/-- The action `login` up to its `await`. -/
def loginBegin (w : World) (data : Form) : AuthStep :=
  { world := { w with auth := { w.auth with isLoggingIn := true } }
    effects := [.request (.postLogin data)]
    outcome := .returned }

/-- The action `login` from its `await` on. -/
def loginResume (w : World) (res : Response AuthBody) : AuthStep :=
  match res with
  | .ok body =>
    let w1 := storeIdentity w body
    { world := { w1 with auth := { w1.auth with isLoggingIn := false } }
      effects := [.readBookmarks, .consoleLog "loginSuccess",
        .toastSuccess (orText body.message "로그인 성공!")]
      outcome := .returned }
  | .fail err =>
    { world := { w with auth := { w.auth with isLoggingIn := false } }
      effects := [.consoleLog err.message,
        .toastError (orText err.responseMessage "로그인 실패"),
        .consoleLog (errLog "login:" err)]
      outcome := .returned }

/-- The action `loginSuccess(user)`: it sets `authUser`, then calls `$reset()`,
`getSessions()` (which runs up to its `await`) and `setSession(null)` on the
session store. -/
def loginSuccess (w : World) (user : Identity) : AuthStep :=
  let w1 := setAuthUser w (some user)
  let c1 := reset w1.chat
  let g := getSessionsBegin c1
  let n := setSessionBegin g.state .null
  { world := { w1 with chat := n.state }
    effects := (g.effects ++ n.effects).map AuthEffect.chat
    outcome := .returned }

/-- The action `logout` up to its `await`. -/
def logoutBegin (w : World) : AuthStep :=
  { world := w, effects := [.request .postLogout], outcome := .returned }

/-- The `finally` block of `logout`: the cookie is expired, `authUser` is set to
`null`, the stored identity is removed and the session store is reset. -/
def logoutCleanup (w : World) : World :=
  let w1 := { w with tokenCookie := none }
  let w2 := setAuthUser w1 none
  let w3 := { w2 with storedAuthUser := none }
  { w3 with chat := reset w3.chat }

/-- The action `logout` from its `await` on. -/
def logoutResume (w : World) (res : Response Unit) : AuthStep :=
  match res with
  | .ok _ =>
    { world := logoutCleanup w
      effects := [.toastSuccess "로그아웃 되었습니다!"]
      outcome := .returned }
  | .fail err =>
    { world := logoutCleanup w
      effects := [.toastError (orText err.responseMessage "로그아웃 실패"),
        .consoleLog (errLog "logout:" err),
        .toastSuccess "로그아웃 되었습니다!"]
      outcome := .returned }

/-- The action `updateProfile` up to its `await`. -/
def updateProfileBegin (w : World) (data : Form) : AuthStep :=
  { world := { w with auth := { w.auth with isUpdatingProfile := true } }
    effects := [.request (.putProfile data)]
    outcome := .returned }

/-- The action `updateProfile` from its `await` on. -/
def updateProfileResume (w : World) (res : Response AuthBody) : AuthStep :=
  match res with
  | .ok body =>
    match body.data with
    | some d =>
      let w1 := setAuthUser w (some d)
      { world := { w1 with auth := { w1.auth with isUpdatingProfile := false } }
        effects := [.toastSuccess "프로필이 성공적으로 변경되었습니다!"]
        outcome := .returned }
    | none =>
      { world := { w with auth := { w.auth with isUpdatingProfile := false } }
        effects := []
        outcome := .returned }
  | .fail err =>
    { world := { w with auth := { w.auth with isUpdatingProfile := false } }
      effects := [.consoleLog ("프로필 수정 실패:" ++ err.message),
        .toastError (orText err.responseMessage "프로필 수정 실패"),
        .consoleLog (errLog "profile:" err)]
      outcome := .returned }

/-- An uninterrupted `checkAuth()`. -/
def checkAuth (w : World) (res : Response Identity) : AuthStep :=
  let b := checkAuthBegin w
  let r := checkAuthResume b.world res
  { r with effects := b.effects ++ r.effects }

/-- An uninterrupted `signup(data)`. -/
def signup (w : World) (data : Form) (res : Response AuthBody) : AuthStep :=
  let b := signupBegin w data
  let r := signupResume b.world res
  { r with effects := b.effects ++ r.effects }

/-- An uninterrupted `login(data)`. -/
def login (w : World) (data : Form) (res : Response AuthBody) : AuthStep :=
  let b := loginBegin w data
  let r := loginResume b.world res
  { r with effects := b.effects ++ r.effects }

/-- An uninterrupted `logout()`. -/
def logout (w : World) (res : Response Unit) : AuthStep :=
  let b := logoutBegin w
  let r := logoutResume b.world res
  { r with effects := b.effects ++ r.effects }

/-- An uninterrupted `updateProfile(data)`. -/
def updateProfile (w : World) (data : Form) (res : Response AuthBody) : AuthStep :=
  let b := updateProfileBegin w data
  let r := updateProfileResume b.world res
  { r with effects := b.effects ++ r.effects }

/-- The effects of the session store among the effects of a step of the
authentication store. -/
def chatEffects (es : List AuthEffect) : List Effect :=
  es.filterMap (fun e => match e with
    | .chat c => some c
    | _ => none)

/-! ## Sample data used in the concrete runs -/

/-- A stored session with number id `n` and no preview yet. -/
def sampleSession (n : Int) (title : String) : Session :=
  { id := .num n, title := some title, last_message := none, last_date := none }

/-- A store holding sessions 1 and 2, with session 1 active and an empty log. -/
def twoSessions : ChatState :=
  { initialState with
    sessions := [sampleSession 1 "trip", sampleSession 2 "work"]
    currentSessionId := .num 1 }

/-- A log entry as the server returns it. -/
def loggedMsg (id : Nat) (role : Role) (text : String) : Message :=
  { id := id, role := role, message := text, createdAt := "2025-01-01T00:00:00.000Z"
    url := none, name := none, restaurant := none }

/-- The stored log of session 1. -/
def logOne : List Message := [loggedMsg 11 .user "one", loggedMsg 12 .assistant "uno"]

/-- The stored log of session 2. -/
def logTwo : List Message := [loggedMsg 21 .user "two"]

/-- A reply of the assistant. -/
def sampleReply : Reply :=
  { message := "Try Cafe Bloom", url := none, name := none
    restaurant := some { name := "Cafe Bloom" } }

/-- The store after session 1 was selected and its log loaded, and the session
list was then reloaded and no longer holds session 1. -/
def activeNotListed : ChatState :=
  (getSessionsResume (setSession twoSessions (.num 1) (.ok logOne)).state
    (.ok [sampleSession 2 "work"])).state

/-- A rejected request. -/
def sampleErr : Err :=
  { responseMessage := none, responseDetail := none, message := "Network Error" }

/-- The store after `createSession("trip")` returned session 1. -/
def tripCreated : ChatState :=
  (createSession initialState "trip" (.ok (sampleSession 1 "trip"))).state

/-- A successful call of `sendMessage` that starts at `now` and whose reply is
delivered at `now2`. -/
def sampleCall (text : String) (now now2 : Nat) : SendCall :=
  { text := text, now := now, iso := "t", res := .ok sampleReply, now2 := now2, iso2 := "u" }

/-- The fields of a login form. -/
def sampleForm : Form := [("email", "ann@example.org"), ("password", "secret")]

/-- A user record with exactly the fields `email`, `id` and `name`. -/
def sampleIdentity : Identity :=
  { email := some "ann@example.org", id := .num 7, name := some "Ann", extra := [] }

/-- A user record that carries one more field. -/
def richIdentity : Identity :=
  { email := some "ann@example.org", id := .num 7, name := some "Ann"
    extra := [("createdAt", "2025-01-01")] }

/-- A user object whose id is the number `0`. -/
def userZero : User := { id := .num 0, name := "zero" }

/-! ## Lemmas -/

/-- Successful creations pile up in front of the collection, last one first. -/
theorem createAll_sessions (ds : List Session) (s : ChatState) :
    (createAll s ds).sessions = ds.reverse ++ s.sessions := by
  induction ds generalizing s with
  | nil => simp [createAll]
  | cons d ds ih =>
    have h := ih (createSession s "" (.ok d)).state
    simp only [createAll, List.foldl_cons] at h ⊢
    rw [h]
    simp [createSession, createSessionBegin, createSessionResume]

/-- The preview update keeps the length of the collection. -/
theorem touchSession_length (sid : JsId) (msg date : String) (l : List Session) :
    (touchSession sid msg date l).length = l.length := by
  simp [touchSession]

/-- The preview update rewrites the two preview fields of an entry with the
given id, in place. -/
theorem touchSession_hit (sid : JsId) (msg date : String) (l : List Session) (i : Nat)
    (x : Session) (hx : l[i]? = some x) (hid : x.id = sid) :
    (touchSession sid msg date l)[i]?
      = some { x with last_message := some msg, last_date := some date } := by
  simp [touchSession, List.getElem?_map, hx, hid]

/-- The preview update leaves an entry with another id as it is, in place. -/
theorem touchSession_miss (sid : JsId) (msg date : String) (l : List Session) (i : Nat)
    (x : Session) (hx : l[i]? = some x) (hid : x.id ≠ sid) :
    (touchSession sid msg date l)[i]? = some x := by
  simp [touchSession, List.getElem?_map, hx, hid]

/-- The collection after the synchronous part of `sendMessage`. -/
theorem sendMessageBegin_sessions (s : ChatState) (text : String) (now : Nat) (iso : String)
    (h : s.currentSessionId.truthy = true) :
    (sendMessageBegin s text now iso).state.sessions
      = touchSession s.currentSessionId text iso s.sessions := by
  simp [sendMessageBegin, h, userMsg]

/-- The collection after the continuation of `sendMessage` on a reply. -/
theorem sendMessageResume_sessions (s : ChatState) (captured : JsId) (data : Reply)
    (now : Nat) (iso : String) :
    (sendMessageResume s captured (.ok data) now iso).state.sessions
      = touchSession captured data.message iso s.sessions := by
  simp [sendMessageResume, assistantMsg]

/-- The log after an uninterrupted `sendMessage` in a store with an active
session. -/
theorem sendMessage_state_messages (s : ChatState) (text : String) (now : Nat) (iso : String)
    (res : Response Reply) (now2 : Nat) (iso2 : String)
    (h : s.currentSessionId.truthy = true) :
    (sendMessage s text now iso res now2 iso2).state.messages
      = s.messages ++ userMsg text now iso ::
          (match res with
            | .ok d => [assistantMsg d now2 iso2]
            | .fail _ => []) := by
  cases res <;> simp [sendMessage, sendMessageBegin, sendMessageResume, h]

/-- An uninterrupted `sendMessage` does not change `currentSessionId`. -/
theorem sendMessage_state_current (s : ChatState) (text : String) (now : Nat) (iso : String)
    (res : Response Reply) (now2 : Nat) (iso2 : String) :
    (sendMessage s text now iso res now2 iso2).state.currentSessionId
      = s.currentSessionId := by
  cases res <;> cases h : s.currentSessionId.truthy <;>
    simp [sendMessage, sendMessageBegin, sendMessageResume, h]

/-- Under a spaced clock the ids of the log stay strictly increasing. -/
theorem sendAll_ids_pairwise (cs : List SendCall) :
    ∀ (s : ChatState) (lo : Nat), s.currentSessionId.truthy = true →
      (s.messages.map (fun m => m.id)).Pairwise (fun a b => a < b) →
      (∀ m ∈ s.messages, m.id < lo) →
      clockSpaced lo cs = true →
      ((sendAll s cs).messages.map (fun m => m.id)).Pairwise (fun a b => a < b) := by
  induction cs with
  | nil =>
    intro s lo _ hs _ _
    simpa [sendAll] using hs
  | cons c cs ih =>
    intro s lo hcur hs hlo hclock
    simp only [clockSpaced, Bool.and_eq_true, decide_eq_true_eq] at hclock
    obtain ⟨⟨h1, h2⟩, h3⟩ := hclock
    simp only [sendAll, List.foldl_cons]
    have hm := sendMessage_state_messages s c.text c.now c.iso c.res c.now2 c.iso2 hcur
    refine ih (sendMessage s c.text c.now c.iso c.res c.now2 c.iso2).state (c.now2 + 2)
      ?_ ?_ ?_ h3
    · rw [sendMessage_state_current]
      exact hcur
    · rw [hm, List.map_append, List.pairwise_append]
      refine ⟨hs, ?_, ?_⟩
      · cases c.res with
        | ok d =>
          simp [userMsg, assistantMsg]
          omega
        | fail e => simp
      · intro a ha b hb
        simp only [List.mem_map] at ha
        obtain ⟨m, hmem, rfl⟩ := ha
        have hlt := hlo m hmem
        cases hres : c.res with
        | ok d =>
          rw [hres] at hb
          simp [userMsg, assistantMsg] at hb
          rcases hb with hb | hb <;> omega
        | fail e =>
          rw [hres] at hb
          simp [userMsg] at hb
          omega
    · intro m hmem
      rw [hm, List.mem_append] at hmem
      rcases hmem with hmem | hmem
      · have := hlo m hmem
        omega
      · cases hres : c.res with
        | ok d =>
          rw [hres] at hmem
          simp at hmem
          rcases hmem with rfl | rfl
          · simp [userMsg]
            omega
          · simp [assistantMsg]
        | fail e =>
          rw [hres] at hmem
          simp at hmem
          subst hmem
          simp [userMsg]
          omega

/-! ## Theorems -/

/-- C1: when `currentSessionId` is `null`, `sendMessage(text)` shows the
"no session" error toast, sends no request (neither in its synchronous part nor
later: the call has returned), and leaves the whole store, hence `sessions`,
`currentSessionId` and `messages`, unchanged. -/
theorem sendMessage_without_session (s : ChatState) (text : String) (now : Nat) (iso : String)
    (res : Response Reply) (now2 : Nat) (iso2 : String)
    (h : s.currentSessionId = .null) :
    sendMessageBegin s text now iso = sendMessage s text now iso res now2 iso2 ∧
    (sendMessage s text now iso res now2 iso2).effects = [.toastError noSessionText] ∧
    requestCount (sendMessage s text now iso res now2 iso2).effects = 0 ∧
    (sendMessage s text now iso res now2 iso2).outcome = .returned ∧
    (sendMessage s text now iso res now2 iso2).state = s ∧
    (sendMessage s text now iso res now2 iso2).state.sessions = s.sessions ∧
    (sendMessage s text now iso res now2 iso2).state.currentSessionId = s.currentSessionId ∧
    (sendMessage s text now iso res now2 iso2).state.messages = s.messages := by
  simp [sendMessage, sendMessageBegin, h, JsId.truthy, requestCount]

/-- Witness of C1 at the initial store. -/
theorem sendMessage_without_session_witness :
    initialState.currentSessionId = .null ∧
    (sendMessage initialState "hello" 5 "t" (.ok sampleReply) 6 "u").effects
      = [.toastError noSessionText] ∧
    (sendMessage initialState "hello" 5 "t" (.ok sampleReply) 6 "u").state = initialState :=
  ⟨rfl,
   (sendMessage_without_session initialState "hello" 5 "t" (.ok sampleReply) 6 "u" rfl).2.1,
   (sendMessage_without_session initialState "hello" 5 "t" (.ok sampleReply) 6 "u" rfl).2.2.2.2.1⟩

/-- C2: with an active session (a `currentSessionId` that passes the guard of
`sendMessage`), the synchronous part of `sendMessage(text)` leaves the log equal
to the previous log followed by exactly one user message with that text, and
sends exactly one request; when the response then succeeds the log is that log
followed by exactly one assistant message; when it fails the log is still the
previous log followed by the user message, with no assistant message. -/
theorem sendMessage_appends (s : ChatState) (text : String) (now : Nat) (iso : String)
    (h : s.currentSessionId.truthy = true) :
    (userMsg text now iso).role = .user ∧ (userMsg text now iso).message = text ∧
    (sendMessageBegin s text now iso).state.messages = s.messages ++ [userMsg text now iso] ∧
    requestCount (sendMessageBegin s text now iso).effects = 1 ∧
    (∀ (data : Reply) (now2 : Nat) (iso2 : String),
      (assistantMsg data now2 iso2).role = .assistant ∧
      (sendMessageResume (sendMessageBegin s text now iso).state s.currentSessionId
          (.ok data) now2 iso2).state.messages
        = (sendMessageBegin s text now iso).state.messages ++ [assistantMsg data now2 iso2] ∧
      (sendMessage s text now iso (.ok data) now2 iso2).state.messages
        = s.messages ++ [userMsg text now iso, assistantMsg data now2 iso2]) ∧
    (∀ (err : Err) (now2 : Nat) (iso2 : String),
      (sendMessageResume (sendMessageBegin s text now iso).state s.currentSessionId
          (.fail err) now2 iso2).state.messages
        = s.messages ++ [userMsg text now iso] ∧
      (sendMessage s text now iso (.fail err) now2 iso2).state.messages
        = s.messages ++ [userMsg text now iso]) := by
  simp [sendMessage, sendMessageBegin, sendMessageResume, h, requestCount, userMsg, assistantMsg]

/-- Witness of C2 on the store with sessions 1 and 2, session 1 active. -/
theorem sendMessage_appends_witness :
    twoSessions.currentSessionId.truthy = true ∧
    (sendMessageBegin twoSessions "hi" 1000 "t0").state.messages
      = twoSessions.messages ++ [userMsg "hi" 1000 "t0"] :=
  ⟨rfl, (sendMessage_appends twoSessions "hi" 1000 "t0" rfl).2.2.1⟩

/-- C3 (the code at the failing runs): `sendMessage` is started while session 1
is active and, before its response is delivered, (a) `setSession(2)` runs and
its log arrives, (b) `setSession(null)` runs, (c) `createSession` succeeds with
session 3.  In each run the completion of the send appends the assistant message
to the log of the store as it then is, so the log after the stale completion
differs from the log before it. -/
theorem sendMessage_stale_completion_appends :
    -- (a) switch to session 2
    (setSession (sendMessageBegin twoSessions "hi" 1000 "t0").state (.num 2)
        (.ok logTwo)).state.currentSessionId = .num 2 ∧
    (setSession (sendMessageBegin twoSessions "hi" 1000 "t0").state (.num 2)
        (.ok logTwo)).state.messages = logTwo ∧
    (sendMessageResume
        (setSession (sendMessageBegin twoSessions "hi" 1000 "t0").state (.num 2)
          (.ok logTwo)).state
        (.num 1) (.ok sampleReply) 2000 "t1").state.currentSessionId = .num 2 ∧
    (sendMessageResume
        (setSession (sendMessageBegin twoSessions "hi" 1000 "t0").state (.num 2)
          (.ok logTwo)).state
        (.num 1) (.ok sampleReply) 2000 "t1").state.messages
      = logTwo ++ [assistantMsg sampleReply 2000 "t1"] ∧
    (sendMessageResume
        (setSession (sendMessageBegin twoSessions "hi" 1000 "t0").state (.num 2)
          (.ok logTwo)).state
        (.num 1) (.ok sampleReply) 2000 "t1").state.messages
      ≠ (setSession (sendMessageBegin twoSessions "hi" 1000 "t0").state (.num 2)
          (.ok logTwo)).state.messages ∧
    -- (b) switch to no session
    (setSessionBegin (sendMessageBegin twoSessions "hi" 1000 "t0").state .null).state.messages
      = [] ∧
    (sendMessageResume
        (setSessionBegin (sendMessageBegin twoSessions "hi" 1000 "t0").state .null).state
        (.num 1) (.ok sampleReply) 2000 "t1").state.currentSessionId = .null ∧
    (sendMessageResume
        (setSessionBegin (sendMessageBegin twoSessions "hi" 1000 "t0").state .null).state
        (.num 1) (.ok sampleReply) 2000 "t1").state.messages
      = [assistantMsg sampleReply 2000 "t1"] ∧
    -- (c) a new session is created
    (createSession (sendMessageBegin twoSessions "hi" 1000 "t0").state ""
        (.ok (sampleSession 3 ""))).state.messages = [] ∧
    (sendMessageResume
        (createSession (sendMessageBegin twoSessions "hi" 1000 "t0").state ""
          (.ok (sampleSession 3 ""))).state
        (.num 1) (.ok sampleReply) 2000 "t1").state.currentSessionId = .num 3 ∧
    (sendMessageResume
        (createSession (sendMessageBegin twoSessions "hi" 1000 "t0").state ""
          (.ok (sampleSession 3 ""))).state
        (.num 1) (.ok sampleReply) 2000 "t1").state.messages
      = [assistantMsg sampleReply 2000 "t1"] := by
  refine ⟨rfl, rfl, rfl, rfl, ?_, rfl, rfl, rfl, rfl, rfl, rfl⟩
  simp [sendMessageResume, setSession, setSessionBegin, setSessionResume, isNullish]

/-- C4 (the code at the failing run): from the store with sessions 1 and 2,
`setSession(1)` is called, then `setSession(2)`; the log of session 2 arrives
first and the log of session 1 after it.  At the end session 2 is active and the
log of the store is the log of session 1, which is not the log of session 2. -/
theorem setSession_late_log_overwrites :
    (setSessionResume
        (setSessionResume
          (setSessionBegin (setSessionBegin twoSessions (.num 1)).state (.num 2)).state
          (.ok logTwo)).state
        (.ok logOne)).state.currentSessionId = .num 2 ∧
    (setSessionResume
        (setSessionResume
          (setSessionBegin (setSessionBegin twoSessions (.num 1)).state (.num 2)).state
          (.ok logTwo)).state
        (.ok logOne)).state.messages = logOne ∧
    logOne ≠ logTwo := by
  refine ⟨rfl, rfl, ?_⟩
  simp [logOne, logTwo]

/-- C5 (the code at the failing input): session 1 is active and its log holds
two entries; after a successful `deleteSession(1)` the active id is `null` and
session 1 is gone from the collection, but the log still holds the two
entries. -/
theorem deleteSession_active_keeps_log :
    ({ twoSessions with messages := logOne } : ChatState).currentSessionId = .num 1 ∧
    (deleteSession { twoSessions with messages := logOne } (.num 1)
        (.ok ())).state.currentSessionId = .null ∧
    (deleteSession { twoSessions with messages := logOne } (.num 1)
        (.ok ())).state.sessions = [sampleSession 2 "work"] ∧
    (deleteSession { twoSessions with messages := logOne } (.num 1)
        (.ok ())).state.messages = logOne ∧
    (deleteSession { twoSessions with messages := logOne } (.num 1)
        (.ok ())).state.messages ≠ [] := by
  refine ⟨rfl, rfl, ?_, rfl, ?_⟩
  · simp [deleteSession, deleteSessionBegin, deleteSessionResume, twoSessions, sampleSession]
  · simp [deleteSession, deleteSessionBegin, deleteSessionResume, logOne]

/-- C6: a successful `deleteSession(id)` with `id` different from
`currentSessionId` leaves `currentSessionId` and the log unchanged; the new
collection is the old one without the sessions whose id equals `id`: a session
is in it exactly when it was in the old one with another id, every other session
occurs as often as before, and the order of those that stay is the old one. -/
theorem deleteSession_other (s : ChatState) (id : JsId) (h : id ≠ s.currentSessionId) :
    (deleteSession s id (.ok ())).state.currentSessionId = s.currentSessionId ∧
    (deleteSession s id (.ok ())).state.messages = s.messages ∧
    (∀ x : Session, x ∈ (deleteSession s id (.ok ())).state.sessions ↔
      (x ∈ s.sessions ∧ x.id ≠ id)) ∧
    (∀ x : Session, x.id ≠ id →
      (deleteSession s id (.ok ())).state.sessions.count x = s.sessions.count x) ∧
    (deleteSession s id (.ok ())).state.sessions.Sublist s.sessions := by
  have hne : ¬ s.currentSessionId = id := fun e => h e.symm
  refine ⟨?_, ?_, ?_, ?_, ?_⟩
  · simp [deleteSession, deleteSessionBegin, deleteSessionResume, hne]
  · simp [deleteSession, deleteSessionBegin, deleteSessionResume]
  · intro x
    simp [deleteSession, deleteSessionBegin, deleteSessionResume, List.mem_filter]
  · intro x hx
    simp only [deleteSession, deleteSessionBegin, deleteSessionResume]
    rw [List.count_filter]
    simpa using hx
  · simp only [deleteSession, deleteSessionBegin, deleteSessionResume]
    exact List.filter_sublist _

/-- Witness of C6: deleting session 2 while session 1 is active. -/
theorem deleteSession_other_witness :
    JsId.num 2 ≠ twoSessions.currentSessionId ∧
    (deleteSession twoSessions (.num 2) (.ok ())).state.currentSessionId
      = twoSessions.currentSessionId ∧
    (deleteSession twoSessions (.num 2) (.ok ())).state.messages = twoSessions.messages ∧
    (deleteSession twoSessions (.num 2) (.ok ())).state.sessions.Sublist twoSessions.sessions :=
  ⟨by decide,
   (deleteSession_other twoSessions (.num 2) (by decide)).1,
   (deleteSession_other twoSessions (.num 2) (by decide)).2.1,
   (deleteSession_other twoSessions (.num 2) (by decide)).2.2.2.2⟩

/-- C7 (counterexample): `$reset` called while `getSessions` is in flight leaves
the session-list loading flag `true`, and called while `getUsers` is in flight
leaves the user-list loading flag `true`. -/
theorem reset_keeps_busy_flags :
    (reset (getSessionsBegin initialState).state).isSessionsLoading = some true ∧
    (reset (getSessionsBegin initialState).state).isSessionsLoading ≠ some false ∧
    (reset (getUsersBegin initialState).state).isUsersLoading = true := by
  refine ⟨rfl, ?_, rfl⟩
  simp [reset, getSessionsBegin]

/-- C7 (amended): for every prior state `$reset` yields an empty collection, a
`null` `currentSessionId`, an empty log and `isMessagesLoading` false; the
session-list and user-list loading flags, like every other field, keep the
value they had. -/
theorem reset_yields (s : ChatState) :
    (reset s).sessions = [] ∧
    (reset s).currentSessionId = .null ∧
    (reset s).messages = [] ∧
    (reset s).isMessagesLoading = false ∧
    (reset s).isSessionsLoading = s.isSessionsLoading ∧
    (reset s).isUsersLoading = s.isUsersLoading ∧
    (reset s).users = s.users ∧
    (reset s).selectedUser = s.selectedUser ∧
    (reset s).chatSessions = s.chatSessions :=
  ⟨rfl, rfl, rfl, rfl, rfl, rfl, rfl, rfl, rfl⟩

/-- C8: a successful `createSession(title)` that receives session `d` yields the
collection `d` followed by the previous collection, `currentSessionId` equal to
`d.id` and an empty log; every other field of the store is unchanged, and the
call sends exactly the creation request. -/
theorem createSession_success (s : ChatState) (title : String) (d : Session) :
    (createSession s title (.ok d)).state.sessions = d :: s.sessions ∧
    (createSession s title (.ok d)).state.currentSessionId = d.id ∧
    (createSession s title (.ok d)).state.messages = [] ∧
    (createSession s title (.ok d)).state.users = s.users ∧
    (createSession s title (.ok d)).state.selectedUser = s.selectedUser ∧
    (createSession s title (.ok d)).state.isUsersLoading = s.isUsersLoading ∧
    (createSession s title (.ok d)).state.isMessagesLoading = s.isMessagesLoading ∧
    (createSession s title (.ok d)).state.isSessionsLoading = s.isSessionsLoading ∧
    (createSession s title (.ok d)).state.chatSessions = s.chatSessions ∧
    (createSession s title (.ok d)).effects = [.request (.postSession title)] ∧
    (createSession s title (.ok d)).outcome = .returned :=
  ⟨rfl, rfl, rfl, rfl, rfl, rfl, rfl, rfl, rfl, rfl, rfl⟩

/-- C9: starting from an empty collection, after a non-empty sequence of
successful `createSession` calls whose returned ids are pairwise distinct, the
collection is the created sessions in reverse creation order: its ids are
pairwise distinct, its length is the number of calls, and its first element is
the session of the last call, which is also the active one. -/
theorem createAll_reverse_order (s : ChatState) (ds : List Session)
    (h0 : s.sessions = []) (hne : ds ≠ [])
    (hd : (ds.map (fun d => d.id)).Nodup) :
    (createAll s ds).sessions = ds.reverse ∧
    ((createAll s ds).sessions.map (fun d => d.id)).Nodup ∧
    (createAll s ds).sessions.length = ds.length ∧
    (createAll s ds).sessions.head? = ds.getLast? ∧
    (createAll s ds).sessions.head? = some (ds.getLast hne) := by
  have hs : (createAll s ds).sessions = ds.reverse := by
    rw [createAll_sessions, h0, List.append_nil]
  refine ⟨hs, ?_, ?_, ?_, ?_⟩
  · rw [hs, List.map_reverse]
    exact List.nodup_reverse.mpr hd
  · rw [hs, List.length_reverse]
  · rw [hs, List.head?_reverse]
  · rw [hs, List.head?_reverse, List.getLast?_eq_getLast _ hne]

/-- Witness of C9: sessions 1, 2 and 3 created in that order. -/
theorem createAll_reverse_order_witness :
    initialState.sessions = [] ∧
    ([sampleSession 1 "a", sampleSession 2 "b", sampleSession 3 "c"].map
      (fun d => d.id)).Nodup ∧
    (createAll initialState
        [sampleSession 1 "a", sampleSession 2 "b", sampleSession 3 "c"]).sessions
      = [sampleSession 3 "c", sampleSession 2 "b", sampleSession 1 "a"] :=
  ⟨rfl, by simp [sampleSession],
   (createAll_reverse_order initialState
    [sampleSession 1 "a", sampleSession 2 "b", sampleSession 3 "c"]
    rfl (by simp) (by simp [sampleSession])).1⟩

/-- C10: for a session id that is neither `null` nor `undefined`,
`setSession(id)` synchronously sets `currentSessionId` to `id`, empties the log,
sets `isMessagesLoading` and requests the log of `id`.  When the fetch succeeds
with `data` the log is exactly `data`; when it fails the log stays empty, an
error toast is shown and the call returns.  In both cases `currentSessionId` is
`id`, `isMessagesLoading` is false afterwards and the collection is unchanged. -/
theorem setSession_nonnull (s : ChatState) (id : JsId)
    (h1 : id ≠ .null) (h2 : id ≠ .undefined) :
    ((setSessionBegin s id).state.currentSessionId = id ∧
      (setSessionBegin s id).state.messages = [] ∧
      (setSessionBegin s id).state.isMessagesLoading = true ∧
      (setSessionBegin s id).state.sessions = s.sessions ∧
      (setSessionBegin s id).effects = [.request (.getLogs id)]) ∧
    (∀ data : List Message,
      (setSession s id (.ok data)).state.messages = data ∧
      (setSession s id (.ok data)).state.currentSessionId = id ∧
      (setSession s id (.ok data)).state.isMessagesLoading = false ∧
      (setSession s id (.ok data)).state.sessions = s.sessions) ∧
    (∀ err : Err,
      (setSession s id (.fail err)).state.messages = [] ∧
      (setSession s id (.fail err)).state.currentSessionId = id ∧
      (setSession s id (.fail err)).state.isMessagesLoading = false ∧
      (setSession s id (.fail err)).state.sessions = s.sessions ∧
      Effect.toastError (errText err) ∈ (setSession s id (.fail err)).effects ∧
      (setSession s id (.fail err)).outcome = .returned) := by
  have hn : isNullish id = false := by
    simp [isNullish, h1, h2]
  simp [setSession, setSessionBegin, setSessionResume, hn]

/-- Witness of C10: selecting session 2 and receiving its log. -/
theorem setSession_nonnull_witness :
    JsId.num 2 ≠ .null ∧ JsId.num 2 ≠ .undefined ∧
    (setSession twoSessions (.num 2) (.ok logTwo)).state.messages = logTwo ∧
    (setSession twoSessions (.num 2) (.ok logTwo)).state.currentSessionId = .num 2 :=
  ⟨by decide, by decide,
   (((setSession_nonnull twoSessions (.num 2) (by decide) (by decide)).2.1) logTwo).1,
   (((setSession_nonnull twoSessions (.num 2) (by decide) (by decide)).2.1) logTwo).2.1⟩

/-- C11 (counterexample): session 1 is active and the reloaded collection holds
only session 2, so `1` is not the id of any session in the collection; a
successful `deleteSession(1)` sets `currentSessionId` to `null`, so the store is
not what it was. -/
theorem deleteSession_absent_active_changes_store :
    (∀ x ∈ activeNotListed.sessions, x.id ≠ JsId.num 1) ∧
    activeNotListed.currentSessionId = .num 1 ∧
    (deleteSession activeNotListed (.num 1) (.ok ())).state.currentSessionId = .null ∧
    (deleteSession activeNotListed (.num 1) (.ok ())).state ≠ activeNotListed := by
  refine ⟨?_, rfl, rfl, ?_⟩
  · simp [activeNotListed, getSessionsResume, sampleSession]
  · intro h
    have h2 := congrArg ChatState.currentSessionId h
    simp [activeNotListed, deleteSession, deleteSessionBegin, deleteSessionResume,
      getSessionsResume, setSession, setSessionBegin, setSessionResume, isNullish,
      twoSessions] at h2

/-- C11 (amended): for an id that is not the id of any session in the collection
and is not `currentSessionId`, a successful `deleteSession(id)` leaves the store
as it was; and for every state and every id, deleting the same id twice in
succession gives the same store as deleting it once. -/
theorem deleteSession_absent_id (s : ChatState) (id : JsId) :
    ((∀ x ∈ s.sessions, x.id ≠ id) → id ≠ s.currentSessionId →
      (deleteSession s id (.ok ())).state = s) ∧
    (deleteSession (deleteSession s id (.ok ())).state id (.ok ())).state
      = (deleteSession s id (.ok ())).state := by
  refine ⟨?_, ?_⟩
  · intro habs hne
    have hf : s.sessions.filter (fun x => x.id != id) = s.sessions := by
      rw [List.filter_eq_self]
      intro a ha
      simpa using habs a ha
    have hc : ¬ s.currentSessionId = id := fun e => hne e.symm
    simp [deleteSession, deleteSessionBegin, deleteSessionResume, hf, hc]
  · by_cases hc : s.currentSessionId = id
    · by_cases hn : JsId.null = id
      · simp [deleteSession, deleteSessionBegin, deleteSessionResume, hc, List.filter_filter]
      · simp [deleteSession, deleteSessionBegin, deleteSessionResume, hc, hn,
          List.filter_filter]
    · simp [deleteSession, deleteSessionBegin, deleteSessionResume, hc, List.filter_filter]

/-- Witness of C11: deleting the unknown id 3 from the store with sessions 1
and 2, session 1 active. -/
theorem deleteSession_absent_id_witness :
    (∀ x ∈ twoSessions.sessions, x.id ≠ JsId.num 3) ∧
    JsId.num 3 ≠ twoSessions.currentSessionId ∧
    (deleteSession twoSessions (.num 3) (.ok ())).state = twoSessions :=
  ⟨by simp [twoSessions, sampleSession], by decide,
   (deleteSession_absent_id twoSessions (.num 3)).1
     (by simp [twoSessions, sampleSession]) (by decide)⟩

/-- C12: when the request of `getSessions`, `createSession` or `deleteSession`
fails, the collection, `currentSessionId` and the log after the call are those
before it; `createSession` and `deleteSession` leave the whole store as it was,
`getSessions` leaves its loading flag false; each call shows one error toast and
returns. -/
theorem failed_request_keeps_store (s : ChatState) (err : Err) (title : String) (id : JsId) :
    ((getSessions s (.fail err)).state.sessions = s.sessions ∧
      (getSessions s (.fail err)).state.currentSessionId = s.currentSessionId ∧
      (getSessions s (.fail err)).state.messages = s.messages ∧
      (getSessions s (.fail err)).state.isSessionsLoading = some false ∧
      (getSessions s (.fail err)).state = { s with isSessionsLoading := some false } ∧
      Effect.toastError (errText err) ∈ (getSessions s (.fail err)).effects ∧
      (getSessions s (.fail err)).outcome = .returned) ∧
    ((createSession s title (.fail err)).state = s ∧
      (createSession s title (.fail err)).state.sessions = s.sessions ∧
      (createSession s title (.fail err)).state.currentSessionId = s.currentSessionId ∧
      (createSession s title (.fail err)).state.messages = s.messages ∧
      Effect.toastError (errText err) ∈ (createSession s title (.fail err)).effects ∧
      (createSession s title (.fail err)).outcome = .returned) ∧
    ((deleteSession s id (.fail err)).state = s ∧
      (deleteSession s id (.fail err)).state.sessions = s.sessions ∧
      (deleteSession s id (.fail err)).state.currentSessionId = s.currentSessionId ∧
      (deleteSession s id (.fail err)).state.messages = s.messages ∧
      Effect.toastError (deleteErrText err) ∈ (deleteSession s id (.fail err)).effects ∧
      (deleteSession s id (.fail err)).outcome = .returned) := by
  simp [getSessions, getSessionsBegin, getSessionsResume, createSession, createSessionBegin,
    createSessionResume, deleteSession, deleteSessionBegin, deleteSessionResume]

/-- C13 (the code at the failing input): when the request of `sendMessage` is
rejected, the continuation ends by throwing the error, in whatever state the
store is; with session 1 active, `sendMessage("hi")` whose request fails ends
with the error thrown to the caller and has shown no toast, while `setSession`
with the same failure shows a toast and returns. -/
theorem sendMessage_failure_throws :
    (∀ (s : ChatState) (captured : JsId) (err : Err) (now : Nat) (iso : String),
      (sendMessageResume s captured (.fail err) now iso).outcome = .threw err ∧
      (sendMessageResume s captured (.fail err) now iso).effects = []) ∧
    (sendMessage twoSessions "hi" 1000 "t0" (.fail sampleErr) 2000 "t1").outcome
      = .threw sampleErr ∧
    (sendMessage twoSessions "hi" 1000 "t0" (.fail sampleErr) 2000 "t1").outcome
      ≠ .returned ∧
    (sendMessage twoSessions "hi" 1000 "t0" (.fail sampleErr) 2000 "t1").effects
      = [.request (.postResponse "hi" (.num 1))] ∧
    (setSession twoSessions (.num 2) (.fail sampleErr)).outcome = .returned ∧
    (setSession twoSessions (.num 2) (.fail sampleErr)).effects
      = [.request (.getLogs (.num 2)), .toastError "Network Error",
          .consoleLog "setSession:undefined"] := by
  refine ⟨fun s captured err now iso => ⟨rfl, rfl⟩, rfl, ?_, rfl, rfl, ?_⟩
  · simp [sendMessage, sendMessageBegin, sendMessageResume, twoSessions, JsId.truthy]
  · simp [setSession, setSessionBegin, setSessionResume, isNullish, errText, errLog, sampleErr]

/-- C14: with active session id `c` when `sendMessage` starts, the optimistic
step rewrites, in place, `last_message` and `last_date` of every session with id
`c` to the text and `createdAt` of the user message and leaves every other
session as it is; the continuation on a reply does the same with the text and
`createdAt` of the assistant message, for the captured id `c` and in whatever
state `t` the store then is (whatever its `currentSessionId`); the length and
order of the collection do not change. -/
theorem sendMessage_preview_fields (s : ChatState) (text : String) (now : Nat) (iso : String)
    (h : s.currentSessionId.truthy = true) :
    ((sendMessageBegin s text now iso).state.sessions.length = s.sessions.length ∧
      (∀ (i : Nat) (x : Session), s.sessions[i]? = some x → x.id = s.currentSessionId →
        (sendMessageBegin s text now iso).state.sessions[i]?
          = some { x with last_message := some (userMsg text now iso).message,
                          last_date := some (userMsg text now iso).createdAt }) ∧
      (∀ (i : Nat) (x : Session), s.sessions[i]? = some x → x.id ≠ s.currentSessionId →
        (sendMessageBegin s text now iso).state.sessions[i]? = some x)) ∧
    (∀ (t : ChatState) (data : Reply) (now2 : Nat) (iso2 : String),
      (sendMessageResume t s.currentSessionId (.ok data) now2 iso2).state.sessions.length
        = t.sessions.length ∧
      (∀ (i : Nat) (x : Session), t.sessions[i]? = some x → x.id = s.currentSessionId →
        (sendMessageResume t s.currentSessionId (.ok data) now2 iso2).state.sessions[i]?
          = some { x with last_message := some (assistantMsg data now2 iso2).message,
                          last_date := some (assistantMsg data now2 iso2).createdAt }) ∧
      (∀ (i : Nat) (x : Session), t.sessions[i]? = some x → x.id ≠ s.currentSessionId →
        (sendMessageResume t s.currentSessionId (.ok data) now2 iso2).state.sessions[i]?
          = some x)) := by
  refine ⟨⟨?_, ?_, ?_⟩, ?_⟩
  · rw [sendMessageBegin_sessions s text now iso h, touchSession_length]
  · intro i x hx hid
    rw [sendMessageBegin_sessions s text now iso h]
    exact touchSession_hit _ _ _ _ i x hx hid
  · intro i x hx hid
    rw [sendMessageBegin_sessions s text now iso h]
    exact touchSession_miss _ _ _ _ i x hx hid
  · intro t data now2 iso2
    refine ⟨?_, ?_, ?_⟩
    · rw [sendMessageResume_sessions, touchSession_length]
    · intro i x hx hid
      rw [sendMessageResume_sessions]
      exact touchSession_hit _ _ _ _ i x hx hid
    · intro i x hx hid
      rw [sendMessageResume_sessions]
      exact touchSession_miss _ _ _ _ i x hx hid

/-- Witness of C14: a send in session 1 whose reply arrives after the user
switched to session 2; the preview of session 1 is the reply, session 2 is
untouched. -/
theorem sendMessage_preview_fields_witness :
    twoSessions.currentSessionId.truthy = true ∧
    (sendMessageBegin twoSessions "hi" 1000 "t0").state.sessions
      = [{ sampleSession 1 "trip" with last_message := some "hi", last_date := some "t0" },
         sampleSession 2 "work"] ∧
    (sendMessageResume
        (setSessionBegin (sendMessageBegin twoSessions "hi" 1000 "t0").state (.num 2)).state
        twoSessions.currentSessionId (.ok sampleReply) 2000 "t1").state.sessions.length
      = 2 :=
  ⟨rfl, rfl,
   ((sendMessage_preview_fields twoSessions "hi" 1000 "t0" rfl).2
      (setSessionBegin (sendMessageBegin twoSessions "hi" 1000 "t0").state (.num 2)).state
      sampleReply 2000 "t1").1⟩

/-- C15: the continuation of `sendMessage` on a reply appends one message whose
role is assistant and whose `message`, `url`, `name` and `restaurant` are those
of the reply, an absent optional field staying absent.  In the run "create
session 1, send one text, receive the reply `Try Cafe Bloom` with restaurant
`Cafe Bloom`" the log has length 2, its second entry is an assistant message
whose restaurant name is `Cafe Bloom` and which has no `url` and no `name`, and
the `last_message` of session 1 is `Try Cafe Bloom`. -/
theorem sendMessage_reply_passthrough :
    (∀ (s : ChatState) (captured : JsId) (data : Reply) (now : Nat) (iso : String),
      (sendMessageResume s captured (.ok data) now iso).state.messages
        = s.messages ++ [assistantMsg data now iso] ∧
      (assistantMsg data now iso).role = .assistant ∧
      (assistantMsg data now iso).message = data.message ∧
      (assistantMsg data now iso).url = data.url ∧
      (assistantMsg data now iso).name = data.name ∧
      (assistantMsg data now iso).restaurant = data.restaurant) ∧
    (sendMessage tripCreated "find a cafe near city hall" 1000 "t0"
        (.ok sampleReply) 2000 "t1").state.messages.length = 2 ∧
    (sendMessage tripCreated "find a cafe near city hall" 1000 "t0"
        (.ok sampleReply) 2000 "t1").state.messages.map (fun m => m.role)
      = [.user, .assistant] ∧
    (sendMessage tripCreated "find a cafe near city hall" 1000 "t0"
        (.ok sampleReply) 2000 "t1").state.messages.map (fun m => m.message)
      = ["find a cafe near city hall", "Try Cafe Bloom"] ∧
    (sendMessage tripCreated "find a cafe near city hall" 1000 "t0"
        (.ok sampleReply) 2000 "t1").state.messages.map
          (fun m => m.restaurant.map (fun r => r.name))
      = [none, some "Cafe Bloom"] ∧
    (sendMessage tripCreated "find a cafe near city hall" 1000 "t0"
        (.ok sampleReply) 2000 "t1").state.messages.map (fun m => (m.url, m.name))
      = [(none, none), (none, none)] ∧
    (sendMessage tripCreated "find a cafe near city hall" 1000 "t0"
        (.ok sampleReply) 2000 "t1").state.sessions.map (fun x => (x.id, x.last_message))
      = [(.num 1, some "Try Cafe Bloom")] := by
  refine ⟨fun s captured data now iso => ⟨rfl, rfl, rfl, rfl, rfl, rfl⟩,
    rfl, rfl, rfl, rfl, rfl, rfl⟩

/-- C16: whatever the two stores hold when the invalidation request of `logout`
is answered, and whether it succeeded or failed, `logout` ends with `authUser`
`null`, the stored identity removed, the cookie expired and the session store
reset (empty collection, `null` `currentSessionId`, empty log), and it returns;
a failed request adds one error toast. -/
theorem logout_clears_everything (w : World) (res : Response Unit) :
    ((logoutResume w res).world.auth.authUser = none ∧
      (logoutResume w res).world.storedAuthUser = none ∧
      (logoutResume w res).world.tokenCookie = none ∧
      (logoutResume w res).world.chat = reset w.chat ∧
      (logoutResume w res).world.chat.sessions = [] ∧
      (logoutResume w res).world.chat.currentSessionId = .null ∧
      (logoutResume w res).world.chat.messages = [] ∧
      (logoutResume w res).outcome = .returned) ∧
    ((logout w res).world.auth.authUser = none ∧
      (logout w res).world.storedAuthUser = none ∧
      (logout w res).world.chat.sessions = [] ∧
      (logout w res).world.chat.currentSessionId = .null ∧
      (logout w res).world.chat.messages = [] ∧
      (logout w res).outcome = .returned) ∧
    (∀ err : Err, AuthEffect.toastError (orText err.responseMessage "로그아웃 실패")
      ∈ (logout w (.fail err)).effects) := by
  refine ⟨?_, ?_, ?_⟩
  · cases res <;>
      simp [logoutResume, logoutCleanup, setAuthUser, reset]
  · cases res <;>
      simp [logout, logoutBegin, logoutResume, logoutCleanup, setAuthUser, reset]
  · intro err
    simp [logout, logoutBegin, logoutResume]

/-- C17 (counterexample): a successful `login` from the start-up world sets and
stores the identity but calls no action of the session store: no session-list
request is sent, the session-list loading flag was never set, and the session
store is what it was. -/
theorem login_starts_no_session_reload :
    (login (initialWorld none none) sampleForm
        (.ok { data := some sampleIdentity, message := some "ok" })).world.auth.authUser
      = some sampleIdentity ∧
    chatEffects (login (initialWorld none none) sampleForm
        (.ok { data := some sampleIdentity, message := some "ok" })).effects = [] ∧
    AuthEffect.chat (.request .getSessions) ∉ (login (initialWorld none none) sampleForm
        (.ok { data := some sampleIdentity, message := some "ok" })).effects ∧
    (login (initialWorld none none) sampleForm
        (.ok { data := some sampleIdentity, message := some "ok" })).world.chat.isSessionsLoading
      = none ∧
    (login (initialWorld none none) sampleForm
        (.ok { data := some sampleIdentity, message := some "ok" })).world.chat
      = initialState := by
  refine ⟨rfl, rfl, ?_, rfl, rfl⟩
  simp [login, loginBegin, loginResume]

/-- C17 (amended): a successful `login` or `signup` that returns identity `d`
sets `authUser` to `d` and stores `d`; both leave the session store unchanged
and call no action of it (`login` calls `readBookmarks`); both end with their
busy flag false on success and on failure.  The session-list reload is started
by the separate action `loginSuccess(u)`, which sets `authUser` to `u`, resets
the session store, starts `getSessions` and selects no session. -/
theorem login_signup_outcome (w : World) (data : Form) (d : Identity) (m : Option String)
    (err : Err) :
    ((login w data (.ok { data := some d, message := m })).world.auth.authUser = some d ∧
      (login w data (.ok { data := some d, message := m })).world.storedAuthUser = some d ∧
      (login w data (.ok { data := some d, message := m })).world.auth.isLoggingIn = false ∧
      (login w data (.ok { data := some d, message := m })).world.chat = w.chat ∧
      chatEffects (login w data (.ok { data := some d, message := m })).effects = [] ∧
      AuthEffect.readBookmarks ∈ (login w data (.ok { data := some d, message := m })).effects) ∧
    ((login w data (.fail err)).world.auth.isLoggingIn = false ∧
      (login w data (.fail err)).world.auth.authUser = w.auth.authUser ∧
      (login w data (.fail err)).world.chat = w.chat ∧
      (login w data (.fail err)).outcome = .returned) ∧
    ((signup w data (.ok { data := some d, message := m })).world.auth.authUser = some d ∧
      (signup w data (.ok { data := some d, message := m })).world.storedAuthUser = some d ∧
      (signup w data (.ok { data := some d, message := m })).world.auth.isSigningUp = false ∧
      (signup w data (.ok { data := some d, message := m })).world.chat = w.chat ∧
      chatEffects (signup w data (.ok { data := some d, message := m })).effects = []) ∧
    ((signup w data (.fail err)).world.auth.isSigningUp = false ∧
      (signup w data (.fail err)).world.auth.authUser = w.auth.authUser ∧
      (signup w data (.fail err)).world.chat = w.chat ∧
      (signup w data (.fail err)).outcome = .returned) ∧
    (∀ u : Identity,
      (loginSuccess w u).world.auth.authUser = some u ∧
      AuthEffect.chat (.request .getSessions) ∈ (loginSuccess w u).effects ∧
      (loginSuccess w u).world.chat.isSessionsLoading = some true ∧
      (loginSuccess w u).world.chat.sessions = [] ∧
      (loginSuccess w u).world.chat.currentSessionId = .null ∧
      (loginSuccess w u).world.chat.messages = []) := by
  refine ⟨?_, ?_, ?_, ?_, ?_⟩
  · simp [login, loginBegin, loginResume, storeIdentity, setAuthUser, chatEffects]
  · simp [login, loginBegin, loginResume]
  · simp [signup, signupBegin, signupResume, storeIdentity, setAuthUser, chatEffects]
  · simp [signup, signupBegin, signupResume]
  · intro u
    simp [loginSuccess, setAuthUser, reset, getSessionsBegin, setSessionBegin, isNullish]

/-- C18 (counterexample): `checkAuth` from the start-up world, confirmed with a
body that carries one field besides `email`, `id` and `name`: `authUser` is the
projection, what is stored is the whole body, so the two differ; no action of
the session store is called and the session store is what it was. -/
theorem checkAuth_stores_whole_body :
    (checkAuth (initialWorld none none) (.ok richIdentity)).world.auth.authUser
      = some richIdentity.project ∧
    (checkAuth (initialWorld none none) (.ok richIdentity)).world.storedAuthUser
      = some richIdentity ∧
    (checkAuth (initialWorld none none) (.ok richIdentity)).world.storedAuthUser
      ≠ (checkAuth (initialWorld none none) (.ok richIdentity)).world.auth.authUser ∧
    chatEffects (checkAuth (initialWorld none none) (.ok richIdentity)).effects = [] ∧
    (checkAuth (initialWorld none none) (.ok richIdentity)).world.chat.isSessionsLoading
      = none ∧
    (checkAuth (initialWorld none none) (.ok richIdentity)).world.chat = initialState := by
  refine ⟨rfl, rfl, ?_, rfl, rfl, rfl⟩
  simp [checkAuth, checkAuthBegin, checkAuthResume, setAuthUser, richIdentity,
    Identity.project]

/-- C18 (amended): `checkAuth` ends with `isCheckingAuth` false.  When the
remote confirms with body `d`, `authUser` is the projection of `d` on `email`,
`id` and `name`, what is stored is the body `d` itself (with the same `email`,
`id` and `name`), and the session store is unchanged with no action of it
called.  When the remote rejects or errors, `authUser` is `null` and the stored
identity is removed. -/
theorem checkAuth_outcome (w : World) (d : Identity) (err : Err) :
    ((checkAuth w (.ok d)).world.auth.isCheckingAuth = false ∧
      (checkAuth w (.ok d)).world.auth.authUser = some d.project ∧
      d.project.email = d.email ∧ d.project.id = d.id ∧ d.project.name = d.name ∧
      d.project.extra = [] ∧
      (checkAuth w (.ok d)).world.storedAuthUser = some d ∧
      (checkAuth w (.ok d)).world.chat = w.chat ∧
      chatEffects (checkAuth w (.ok d)).effects = [] ∧
      (checkAuth w (.ok d)).outcome = .returned) ∧
    ((checkAuth w (.fail err)).world.auth.isCheckingAuth = false ∧
      (checkAuth w (.fail err)).world.auth.authUser = none ∧
      (checkAuth w (.fail err)).world.storedAuthUser = none ∧
      (checkAuth w (.fail err)).world.chat = w.chat ∧
      (checkAuth w (.fail err)).outcome = .returned) := by
  simp [checkAuth, checkAuthBegin, checkAuthResume, setAuthUser, Identity.project,
    chatEffects]

/-- C19 (counterexample): two successful sends into the empty log of session 1
under a non-decreasing clock.  With readings 100, 100, 101, 101 the ids of the
log are 100, 101, 101, 102, which are not pairwise distinct; with readings 100,
100, 100, 100 they are 100, 101, 100, 101, which are not in non-decreasing
order. -/
theorem sendAll_ids_collide :
    clockMonotone 0 [sampleCall "a" 100 100, sampleCall "b" 101 101] = true ∧
    (sendAll twoSessions [sampleCall "a" 100 100, sampleCall "b" 101 101]).messages.map
        (fun m => m.id) = [100, 101, 101, 102] ∧
    ¬ ((sendAll twoSessions [sampleCall "a" 100 100, sampleCall "b" 101 101]).messages.map
        (fun m => m.id)).Nodup ∧
    clockMonotone 0 [sampleCall "a" 100 100, sampleCall "b" 100 100] = true ∧
    (sendAll twoSessions [sampleCall "a" 100 100, sampleCall "b" 100 100]).messages.map
        (fun m => m.id) = [100, 101, 100, 101] ∧
    ¬ ((sendAll twoSessions [sampleCall "a" 100 100, sampleCall "b" 100 100]).messages.map
        (fun m => m.id)).Pairwise (fun a b => a ≤ b) := by
  have h1 : (sendAll twoSessions [sampleCall "a" 100 100, sampleCall "b" 101 101]).messages.map
      (fun m => m.id) = [100, 101, 101, 102] := rfl
  have h2 : (sendAll twoSessions [sampleCall "a" 100 100, sampleCall "b" 100 100]).messages.map
      (fun m => m.id) = [100, 101, 100, 101] := rfl
  refine ⟨by decide, h1, ?_, by decide, h2, ?_⟩
  · rw [h1]
    decide
  · rw [h2]
    decide

/-- C19 (amended): for every sequence of uninterrupted `sendMessage` calls on
one active session, starting from a log whose ids are strictly increasing and
below the first clock reading (the empty log is one), under a clock in which no
response is delivered before its call and every call starts at least 2 after
the delivery of the response before it, the ids of the resulting log are
strictly increasing in log order, hence pairwise distinct and non-decreasing. -/
theorem sendAll_ids_increasing (s : ChatState) (cs : List SendCall) (lo : Nat)
    (hcur : s.currentSessionId.truthy = true)
    (hsorted : (s.messages.map (fun m => m.id)).Pairwise (fun a b => a < b))
    (hbelow : ∀ m ∈ s.messages, m.id < lo)
    (hclock : clockSpaced lo cs = true) :
    ((sendAll s cs).messages.map (fun m => m.id)).Pairwise (fun a b => a < b) ∧
    ((sendAll s cs).messages.map (fun m => m.id)).Nodup ∧
    ((sendAll s cs).messages.map (fun m => m.id)).Pairwise (fun a b => a ≤ b) := by
  have h := sendAll_ids_pairwise cs s lo hcur hsorted hbelow hclock
  refine ⟨h, ?_, ?_⟩
  · exact h.imp (fun hab => Nat.ne_of_lt hab)
  · exact h.imp (fun hab => Nat.le_of_lt hab)

/-- Witness of C19: two sends into the empty log of session 1 with clock
readings 100, 100, 102, 105. -/
theorem sendAll_ids_increasing_witness :
    twoSessions.currentSessionId.truthy = true ∧
    clockSpaced 0 [sampleCall "a" 100 100, sampleCall "b" 102 105] = true ∧
    ((sendAll twoSessions [sampleCall "a" 100 100, sampleCall "b" 102 105]).messages.map
        (fun m => m.id)).Nodup :=
  ⟨rfl, by decide,
   (sendAll_ids_increasing twoSessions [sampleCall "a" 100 100, sampleCall "b" 102 105] 0
      rfl (by simp [twoSessions, initialState]) (by simp [twoSessions, initialState])
      (by decide)).2.1⟩

/-- C20 (the code at the failing input): `setSelectedUser` called with a user
object whose id is the number `0` selects that user, since `0 == null` is false;
`null`, `undefined` and a user whose id is `null` or `undefined` are blocked. -/
theorem setSelectedUser_id_zero_selected :
    (setSelectedUser { twoSessions with messages := logOne } (.obj userZero)).selectedUser
      = some userZero ∧
    (setSelectedUser { twoSessions with messages := logOne } (.obj userZero)).selectedUser
      ≠ none ∧
    (setSelectedUser { twoSessions with messages := logOne } (.obj userZero)).messages = [] ∧
    (setSelectedUser { twoSessions with selectedUser := some userZero } .null).selectedUser
      = none ∧
    (setSelectedUser { twoSessions with selectedUser := some userZero } .undefined).selectedUser
      = none ∧
    (setSelectedUser { twoSessions with selectedUser := some userZero }
        (.obj { id := .null, name := "n" })).selectedUser = none ∧
    (setSelectedUser { twoSessions with selectedUser := some userZero }
        (.obj { id := .undefined, name := "u" })).selectedUser = none := by
  refine ⟨rfl, ?_, rfl, rfl, rfl, rfl, rfl⟩
  simp [setSelectedUser, userZero, looseEqNull]

end ChatStore
